import Mathlib

/-!
Verification development for the purser ledger wallet module.

The development shallowly embeds two source files:
  * `src/ledger/index.js` — the `open` method of the ledger wallet object;
  * the provider generator module — `etherscan`, `infura`, `metamask`,
    `localhost`.

External effects (the hardware device, the ethers provider constructors,
the injected browser wallet) are modelled as explicit environment records,
and side effects (warnings, error logs, connection attempts) are collected
in an event trace returned alongside the value.  Helpers that the source
imports from elsewhere in the repository but whose code is absent
(`userInputValidator`, `derivationPathSerializer`, `ledgerConnection`,
`handleLedgerConnectionError`, the `LedgerWallet` class, the constant
modules) are modelled from the specification and flagged as such on each
definition.
-/

namespace Purser

/-- A JavaScript error value; only its `message` field is read by the code. -/
structure JsError where
  message : String
deriving DecidableEq, Repr

/-- Modelled from the spec: `NETWORK_IDS.HOMESTEAD`, the mainnet network id
(the source doc comment reads "defaults to mainnet (1)"). -/
def NETWORK_IDS_HOMESTEAD : Int := 1

/-- Modelled from the spec: `PATH.COIN_MAINNET`, the standard Ether coin
type constant (the spec gives coin type 60 for mainnet). -/
def PATH_COIN_MAINNET : Int := 60

/-- Modelled from the spec: `PATH.COIN_TESTNET`, the designated testnet coin
type constant (the source comment reads: if on a testnet set the coin type
id to 1). -/
def PATH_COIN_TESTNET : Int := 1

/-- Modelled from the spec: `DEFAULT_NETWORK` from the defaults module, the
default network name. -/
def DEFAULT_NETWORK : String := "homestead"

/-- The caller supplied configuration object (`WalletArgumentsType`); a
field holds `none` when it is missing or `undefined` on the JS object. -/
structure WalletArguments where
  addressCount : Option Int
  chainId : Option Int
deriving DecidableEq, Repr

/-- A validation failure naming the offending field. -/
structure ValidationError where
  field : String
deriving DecidableEq, Repr

/-- Modelled from the spec: `userInputValidator` from `core/helpers` (absent
from the sources).  Per the spec, it checks presence and type of
`addressCount` (a non-negative integer) and the type of `chainId` when
present (a positive integer), failing with a `ValidationError` naming the
offending field. -/
def userInputValidator (args : WalletArguments) : Except ValidationError Unit :=
  match args.addressCount with
  | none => .error ⟨"addressCount"⟩
  | some n =>
    if n < 0 then .error ⟨"addressCount"⟩
    else
      match args.chainId with
      | none => .ok ()
      | some c => if c ≤ 0 then .error ⟨"chainId"⟩ else .ok ()

/-- A BIP-44 style root derivation path, kept as its variable segments
(the fixed template is m slash 44 slash coinType slash account). -/
structure RootPath where
  coinType : Int
  account : Int
deriving DecidableEq, Repr

/-- Modelled from the spec: `derivationPathSerializer` from `core/helpers`
(absent from the sources).  Given a coin type it produces the root path per
the fixed template with account 0 and no change or index segment. -/
def derivationPathSerializer (coinType : Int) : RootPath :=
  { coinType := coinType, account := 0 }

/-- The device response to `getAddress`: a root public key and chain code. -/
structure DeviceResponse where
  publicKey : String
  chainCode : String
deriving DecidableEq, Repr

/-- Modelled from the spec: the external elliptic-curve child key
derivation primitive used by the `LedgerWallet` class.  It is deterministic
in the root key material and the full child path; we record exactly those
inputs, which keeps it injective in the child index. -/
structure DerivedAddress where
  publicKey : String
  chainCode : String
  root : RootPath
  change : Int
  index : Int
deriving DecidableEq, Repr

/-- Modelled from the spec: derive the address at `rootPath/0/i`. -/
def deriveAddress (publicKey chainCode : String) (root : RootPath)
    (index : Int) : DerivedAddress :=
  { publicKey := publicKey, chainCode := chainCode, root := root,
    change := 0, index := index }

/-- The wallet value produced by the `LedgerWallet` class constructor. -/
structure LedgerWallet where
  publicKey : String
  chainCode : String
  rootDerivationPath : RootPath
  addressCount : Int
  chainId : Int
  addresses : List DerivedAddress
deriving DecidableEq, Repr

/-- Modelled from the spec: the `LedgerWallet` class constructor (absent
from the sources).  For i in 0 .. addressCount - 1 it derives the child
address at path `rootDerivationPath/0/i`, eagerly and in index order. -/
def ledgerWalletNew (publicKey chainCode : String) (root : RootPath)
    (addressCount chainId : Int) : LedgerWallet :=
  { publicKey := publicKey, chainCode := chainCode,
    rootDerivationPath := root, addressCount := addressCount,
    chainId := chainId,
    addresses := (List.range addressCount.toNat).map
      (fun i => deriveAddress publicKey chainCode root (Int.ofNat i)) }

/-- The generic export error message prefix (`messages.userExportGenericError`). -/
def userExportGenericError : String := "Error while exporting your"

/-- The context the catch block of `open` passes to the connection error
handler: the generic prefix, the root derivation path and the underlying
error message, mirroring the template string at the catch site. -/
structure ErrorReport where
  genericPrefix : String
  path : RootPath
  underlying : String
deriving DecidableEq, Repr

/-- Events produced while `open` runs, in order. -/
inductive LedgerEvent where
  | connectionAttempt
  | getAddressRequest (path : RootPath) (display prompt : Bool)
  | errorReport (r : ErrorReport)
deriving DecidableEq, Repr

/-- The environment of `open`: the outcome of `ledgerConnection()` and the
behaviour of the connected device `getAddress` call. -/
structure LedgerEnv where
  connect : Except JsError Unit
  getAddress : RootPath → Bool → Bool → Except JsError DeviceResponse

/-- Modelled from the spec: `handleLedgerConnectionError` from
`ledger/helpers` (absent from the sources).  It reports the mapped error
with the given message context and resolves to `undefined` per current
policy, never re-throwing. -/
def handleLedgerConnectionError (report : ErrorReport) :
    Option LedgerWallet × List LedgerEvent :=
  (none, [.errorReport report])

/-- The coin type selection of `open` (source lines 50-53): the mainnet
chain id maps to the mainnet coin constant, every other chain id to the
testnet coin constant. -/
def coinTypeFor (chainId : Int) : Int :=
  if chainId = NETWORK_IDS_HOMESTEAD then PATH_COIN_MAINNET
  else PATH_COIN_TESTNET

/-- The `open` method of the ledger wallet (source `src/ledger/index.js`).
Validation runs outside the try block; everything after it is inside the
try, with the catch delegating to `handleLedgerConnectionError`.  The
result pairs the settled promise value (`Except.error` for a rejection
with a `ValidationError`, `Except.ok` for a resolution) with the ordered
event trace. -/
def openWallet (env : LedgerEnv) (args : WalletArguments) :
    Except ValidationError (Option LedgerWallet) × List LedgerEvent :=
  match userInputValidator args with
  | .error e => (.error e, [])
  | .ok _ =>
    let addressCount := args.addressCount.getD 0
    let chainId := args.chainId.getD NETWORK_IDS_HOMESTEAD
    let coinType := coinTypeFor chainId
    let rootDerivationPath := derivationPathSerializer coinType
    match env.connect with
    | .error err =>
      let handled := handleLedgerConnectionError
        ⟨userExportGenericError, rootDerivationPath, err.message⟩
      (.ok handled.fst, .connectionAttempt :: handled.snd)
    | .ok _ =>
      match env.getAddress rootDerivationPath false true with
      | .error err =>
        let handled := handleLedgerConnectionError
          ⟨userExportGenericError, rootDerivationPath, err.message⟩
        (.ok handled.fst,
          .connectionAttempt ::
            .getAddressRequest rootDerivationPath false true ::
              handled.snd)
      | .ok resp =>
        (.ok (some (ledgerWalletNew resp.publicKey resp.chainCode
            rootDerivationPath addressCount chainId)),
          [.connectionAttempt,
            .getAddressRequest rootDerivationPath false true])

/-- Which provider generator a log entry or construction attempt belongs to. -/
inductive ProviderKind where
  | etherscanK
  | infuraK
  | metamaskK
  | localhostK
deriving DecidableEq, Repr

/-- A constructed ethers provider, recorded with the parameters the
underlying constructor received. -/
inductive Provider where
  | etherscanP (network : String) (apiKey : Option String)
  | infuraP (network : String) (apiKey : Option String)
  | jsonRpcP (url network : String)
  | web3P (network : String)
deriving DecidableEq, Repr

/-- The value a provider generator returns: either the empty object
sentinel or a constructed provider. -/
inductive ProviderResult where
  | empty
  | provider (p : Provider)
deriving DecidableEq, Repr

/-- The warnings the provider module can emit. -/
inductive Warning where
  | etherscanApiKey
  | infuraApiKey
  | metamaskNotAvailable
deriving DecidableEq, Repr

/-- Events produced while a provider generator runs, in order: a warning,
a structured error log from a catch block, or a call into an underlying
ethers constructor. -/
inductive ProvEvent where
  | warnLog (w : Warning)
  | errorLog (k : ProviderKind) (e : JsError)
  | ctorCall (k : ProviderKind)
deriving DecidableEq, Repr

/-- The environment of the provider module: for each underlying ethers
constructor, whether a call with the given parameters throws (`some err`)
or succeeds (`none`), and the injected browser wallet provider when one is
present (`global.web3.currentProvider`; `none` covers both a missing
`global.web3` and a falsy `currentProvider`). -/
structure ProviderEnv where
  etherscanThrows : String → Option String → Option JsError
  infuraThrows : String → Option String → Option JsError
  jsonRpcThrows : String → String → Option JsError
  web3Throws : String → Option JsError
  web3Current : Option Unit

/-- `new providers.EtherscanProvider(network, apiKey)` under `env`. -/
def etherscanNew (env : ProviderEnv) (network : String)
    (apiKey : Option String) : Except JsError Provider :=
  match env.etherscanThrows network apiKey with
  | some e => .error e
  | none => .ok (.etherscanP network apiKey)

/-- `new providers.InfuraProvider(network, apiKey)` under `env`. -/
def infuraNew (env : ProviderEnv) (network : String)
    (apiKey : Option String) : Except JsError Provider :=
  match env.infuraThrows network apiKey with
  | some e => .error e
  | none => .ok (.infuraP network apiKey)

/-- `new providers.JsonRpcProvider(url, network)` under `env`. -/
def jsonRpcNew (env : ProviderEnv) (url network : String) :
    Except JsError Provider :=
  match env.jsonRpcThrows url network with
  | some e => .error e
  | none => .ok (.jsonRpcP url network)

/-- `new providers.Web3Provider(currentProvider, network)` under `env`. -/
def web3New (env : ProviderEnv) (network : String) :
    Except JsError Provider :=
  match env.web3Throws network with
  | some e => .error e
  | none => .ok (.web3P network)

/-- JavaScript truthiness of the optional `apiKey` string argument:
`undefined` and the empty string are falsy. -/
def jsTruthy : Option String → Bool
  | none => false
  | some s => s ≠ ""

/-- The `etherscan` provider generator.  `provider` starts as the empty
object; inside the try block, when `apiKey` is truthy the keyed constructor
is tried first, then the missing-api-key warning is emitted and the keyless
constructor result unconditionally overwrites `provider`; the catch block
logs and the current `provider` value is returned. -/
def etherscan (env : ProviderEnv) (network : String)
    (apiKey : Option String) : ProviderResult × List ProvEvent :=
  if jsTruthy apiKey then
    match etherscanNew env network apiKey with
    | .error e =>
      (.empty, [.ctorCall .etherscanK, .errorLog .etherscanK e])
    | .ok p1 =>
      match etherscanNew env network none with
      | .error e =>
        (.provider p1,
          [.ctorCall .etherscanK, .warnLog .etherscanApiKey,
            .ctorCall .etherscanK, .errorLog .etherscanK e])
      | .ok p2 =>
        (.provider p2,
          [.ctorCall .etherscanK, .warnLog .etherscanApiKey,
            .ctorCall .etherscanK])
  else
    match etherscanNew env network none with
    | .error e =>
      (.empty,
        [.warnLog .etherscanApiKey, .ctorCall .etherscanK,
          .errorLog .etherscanK e])
    | .ok p2 =>
      (.provider p2, [.warnLog .etherscanApiKey, .ctorCall .etherscanK])

/-- The `infura` provider generator; same shape as `etherscan`. -/
def infura (env : ProviderEnv) (network : String)
    (apiKey : Option String) : ProviderResult × List ProvEvent :=
  if jsTruthy apiKey then
    match infuraNew env network apiKey with
    | .error e =>
      (.empty, [.ctorCall .infuraK, .errorLog .infuraK e])
    | .ok p1 =>
      match infuraNew env network none with
      | .error e =>
        (.provider p1,
          [.ctorCall .infuraK, .warnLog .infuraApiKey,
            .ctorCall .infuraK, .errorLog .infuraK e])
      | .ok p2 =>
        (.provider p2,
          [.ctorCall .infuraK, .warnLog .infuraApiKey,
            .ctorCall .infuraK])
  else
    match infuraNew env network none with
    | .error e =>
      (.empty,
        [.warnLog .infuraApiKey, .ctorCall .infuraK,
          .errorLog .infuraK e])
    | .ok p2 =>
      (.provider p2, [.warnLog .infuraApiKey, .ctorCall .infuraK])

/-- The `metamask` provider generator: when no injected browser wallet
provider is present it warns and returns the empty sentinel at once;
otherwise it constructs a Web3Provider, with the catch block logging. -/
def metamask (env : ProviderEnv) (network : String) :
    ProviderResult × List ProvEvent :=
  match env.web3Current with
  | none => (.empty, [.warnLog .metamaskNotAvailable])
  | some _ =>
    match web3New env network with
    | .error e => (.empty, [.ctorCall .metamaskK, .errorLog .metamaskK e])
    | .ok p => (.provider p, [.ctorCall .metamaskK])

/-- The `localhost` provider generator: a single JsonRpcProvider
construction inside try, with the catch block logging. -/
def localhost (env : ProviderEnv) (url network : String) :
    ProviderResult × List ProvEvent :=
  match jsonRpcNew env url network with
  | .error e => (.empty, [.ctorCall .localhostK, .errorLog .localhostK e])
  | .ok p => (.provider p, [.ctorCall .localhostK])

/-! Concrete environments and configurations used by witnesses. -/

/-- A fixed device response used by concrete environments. -/
def devResponse : DeviceResponse :=
  { publicKey := "rootPublicKey", chainCode := "rootChainCode" }

/-- A ledger environment in which connection and address request succeed. -/
def okLedgerEnv : LedgerEnv :=
  { connect := .ok (), getAddress := fun _ _ _ => .ok devResponse }

/-- A ledger environment in which the device connection fails. -/
def connectFailEnv : LedgerEnv :=
  { connect := .error ⟨"device not connected"⟩,
    getAddress := fun _ _ _ => .ok devResponse }

/-- A ledger environment in which the address request fails. -/
def getAddressFailEnv : LedgerEnv :=
  { connect := .ok (), getAddress := fun _ _ _ => .error ⟨"user rejected"⟩ }

/-- A configuration with both recognized fields present and valid. -/
def someArgs : WalletArguments := { addressCount := some 3, chainId := some 5 }

/-- A configuration that omits `chainId`. -/
def defaultChainArgs : WalletArguments :=
  { addressCount := some 3, chainId := none }

/-- A configuration whose `addressCount` is missing or undefined. -/
def missingCountArgs : WalletArguments :=
  { addressCount := none, chainId := some 1 }

/-- A provider environment in which no underlying constructor throws and no
injected browser wallet is present. -/
def benignProviderEnv : ProviderEnv :=
  { etherscanThrows := fun _ _ => none, infuraThrows := fun _ _ => none,
    jsonRpcThrows := fun _ _ => none, web3Throws := fun _ => none,
    web3Current := none }

/-- A provider environment in which every underlying constructor throws and
an injected browser wallet is present. -/
def throwingProviderEnv : ProviderEnv :=
  { etherscanThrows := fun _ _ => some ⟨"etherscan down"⟩,
    infuraThrows := fun _ _ => some ⟨"infura down"⟩,
    jsonRpcThrows := fun _ _ => some ⟨"rpc down"⟩,
    web3Throws := fun _ => some ⟨"web3 down"⟩,
    web3Current := some () }

/-- A provider environment in which the keyed etherscan and infura
constructions succeed but the keyless ones throw. -/
def keyedOnlyProviderEnv : ProviderEnv :=
  { etherscanThrows := fun _ k =>
      match k with | some _ => none | none => some ⟨"no key"⟩,
    infuraThrows := fun _ k =>
      match k with | some _ => none | none => some ⟨"no key"⟩,
    jsonRpcThrows := fun _ _ => none, web3Throws := fun _ => none,
    web3Current := none }

/-- Shape of a successful `openWallet` run: validation passed, the device
returned some response, and the wallet is the class constructor applied to
that response, the serialized root path, and the effective address count
and chain id. -/
theorem openWallet_ok_some (env : LedgerEnv) (args : WalletArguments)
    (w : LedgerWallet) (h : (openWallet env args).fst = .ok (some w)) :
    userInputValidator args = .ok () ∧
    ∃ resp : DeviceResponse,
      env.getAddress
          (derivationPathSerializer
            (coinTypeFor (args.chainId.getD NETWORK_IDS_HOMESTEAD)))
          false true = .ok resp ∧
      w = ledgerWalletNew resp.publicKey resp.chainCode
        (derivationPathSerializer
          (coinTypeFor (args.chainId.getD NETWORK_IDS_HOMESTEAD)))
        (args.addressCount.getD 0) (args.chainId.getD NETWORK_IDS_HOMESTEAD) := by
  rcases hv : userInputValidator args with e | u
  · simp [openWallet, hv] at h
  · rcases hc : env.connect with ce | cu
    · simp [openWallet, hv, hc, handleLedgerConnectionError] at h
    · rcases hg : env.getAddress
          (derivationPathSerializer
            (coinTypeFor (args.chainId.getD NETWORK_IDS_HOMESTEAD)))
          false true with ge | resp
      · simp [openWallet, hv, hc, hg, handleLedgerConnectionError] at h
      · refine ⟨rfl, resp, rfl, ?_⟩
        simp [openWallet, hv, hc, hg] at h
        exact h.symm

/-- C1: calling `open` with a configuration whose `addressCount` is missing
or undefined fails validation with a `ValidationError` naming the field,
before any device connection is attempted: the promise rejects and the
event trace is empty, so no connection side effect occurs. -/
theorem open_missing_addressCount_fails_before_connection
    (env : LedgerEnv) (args : WalletArguments)
    (h : args.addressCount = none) :
    (openWallet env args).fst = .error ⟨"addressCount"⟩ ∧
    (openWallet env args).snd = [] := by
  simp [openWallet, userInputValidator, h]

/-- Witness for C1 at a concrete environment and configuration. -/
theorem open_missing_addressCount_fails_before_connection_witness :
    (openWallet okLedgerEnv missingCountArgs).fst = .error ⟨"addressCount"⟩ ∧
    (openWallet okLedgerEnv missingCountArgs).snd = [] :=
  open_missing_addressCount_fails_before_connection okLedgerEnv
    missingCountArgs rfl

/-- C2: for every configuration passed to `open`, the coin type is resolved
by a binary mapping on the effective chain id (which the resulting wallet
also carries): the mainnet id gives the mainnet coin constant, every other
value the testnet coin constant. -/
theorem open_coin_type_binary_mapping
    (env : LedgerEnv) (args : WalletArguments) (w : LedgerWallet)
    (h : (openWallet env args).fst = .ok (some w)) :
    (w.chainId = NETWORK_IDS_HOMESTEAD →
      w.rootDerivationPath.coinType = PATH_COIN_MAINNET) ∧
    (w.chainId ≠ NETWORK_IDS_HOMESTEAD →
      w.rootDerivationPath.coinType = PATH_COIN_TESTNET) := by
  obtain ⟨-, resp, -, hw⟩ := openWallet_ok_some env args w h
  subst hw
  constructor <;>
    · intro hc
      simp [ledgerWalletNew, derivationPathSerializer, coinTypeFor] at hc ⊢
      simp [hc]

/-- Witness for C2: a mainnet and a non-mainnet concrete run. -/
theorem open_coin_type_binary_mapping_witness :
    (ledgerWalletNew devResponse.publicKey devResponse.chainCode
        (derivationPathSerializer (coinTypeFor 5)) 3 5).rootDerivationPath.coinType
      = PATH_COIN_TESTNET := by
  refine (open_coin_type_binary_mapping okLedgerEnv someArgs _ rfl).2 ?_
  decide

/-- C5: after validation succeeds, every error raised while connecting or
requesting the address is caught at the top level of `open`, reported with
the root derivation path and the underlying error message, and the promise
resolves with the handled outcome instead of rejecting. -/
theorem open_connection_errors_handled
    (env : LedgerEnv) (args : WalletArguments)
    (hv : userInputValidator args = .ok ()) :
    (∀ e : JsError, env.connect = .error e →
      (openWallet env args).fst = .ok none ∧
      (openWallet env args).snd =
        [.connectionAttempt,
          .errorReport ⟨userExportGenericError,
            derivationPathSerializer
              (coinTypeFor (args.chainId.getD NETWORK_IDS_HOMESTEAD)),
            e.message⟩]) ∧
    (∀ e : JsError, env.connect = .ok () →
      env.getAddress
          (derivationPathSerializer
            (coinTypeFor (args.chainId.getD NETWORK_IDS_HOMESTEAD)))
          false true = .error e →
      (openWallet env args).fst = .ok none ∧
      (openWallet env args).snd =
        [.connectionAttempt,
          .getAddressRequest
            (derivationPathSerializer
              (coinTypeFor (args.chainId.getD NETWORK_IDS_HOMESTEAD)))
            false true,
          .errorReport ⟨userExportGenericError,
            derivationPathSerializer
              (coinTypeFor (args.chainId.getD NETWORK_IDS_HOMESTEAD)),
            e.message⟩]) := by
  constructor
  · intro e hc
    simp [openWallet, hv, hc, handleLedgerConnectionError]
  · intro e hc hg
    simp [openWallet, hv, hc, hg, handleLedgerConnectionError]

/-- Witness for C5: concrete connection failure and address-request
failure runs. -/
theorem open_connection_errors_handled_witness :
    ((openWallet connectFailEnv someArgs).fst = .ok none ∧
      (openWallet connectFailEnv someArgs).snd =
        [.connectionAttempt,
          .errorReport ⟨userExportGenericError,
            derivationPathSerializer (coinTypeFor 5),
            "device not connected"⟩]) ∧
    ((openWallet getAddressFailEnv someArgs).fst = .ok none ∧
      (openWallet getAddressFailEnv someArgs).snd =
        [.connectionAttempt,
          .getAddressRequest (derivationPathSerializer (coinTypeFor 5))
            false true,
          .errorReport ⟨userExportGenericError,
            derivationPathSerializer (coinTypeFor 5),
            "user rejected"⟩]) :=
  ⟨(open_connection_errors_handled connectFailEnv someArgs rfl).1
      ⟨"device not connected"⟩ rfl,
    (open_connection_errors_handled getAddressFailEnv someArgs rfl).2
      ⟨"user rejected"⟩ rfl rfl⟩

/-- C7: validation runs strictly before any I/O: whenever it fails, the
`ValidationError` is surfaced immediately and the event trace is empty, so
neither the device connection nor the address request was initiated. -/
theorem open_validation_before_io
    (env : LedgerEnv) (args : WalletArguments) (e : ValidationError)
    (h : userInputValidator args = .error e) :
    (openWallet env args).fst = .error e ∧
    (openWallet env args).snd = [] := by
  simp [openWallet, h]

/-- Witness for C7 at a concrete failing configuration. -/
theorem open_validation_before_io_witness :
    (openWallet connectFailEnv missingCountArgs).fst =
        .error ⟨"addressCount"⟩ ∧
    (openWallet connectFailEnv missingCountArgs).snd = [] :=
  open_validation_before_io connectFailEnv missingCountArgs
    ⟨"addressCount"⟩ rfl

/-- C8: when the configuration omits `chainId`, `open` uses the mainnet
network id: the resulting wallet carries the mainnet chain id and its root
derivation path uses the mainnet coin type. -/
theorem open_default_chain_id
    (env : LedgerEnv) (args : WalletArguments) (w : LedgerWallet)
    (hc : args.chainId = none)
    (h : (openWallet env args).fst = .ok (some w)) :
    w.chainId = NETWORK_IDS_HOMESTEAD ∧
    w.rootDerivationPath.coinType = PATH_COIN_MAINNET := by
  obtain ⟨-, resp, -, hw⟩ := openWallet_ok_some env args w h
  subst hw
  simp [ledgerWalletNew, derivationPathSerializer, coinTypeFor, hc,
    NETWORK_IDS_HOMESTEAD, PATH_COIN_MAINNET]

/-- Witness for C8 at a concrete successful run without `chainId`. -/
theorem open_default_chain_id_witness :
    (ledgerWalletNew devResponse.publicKey devResponse.chainCode
        (derivationPathSerializer (coinTypeFor NETWORK_IDS_HOMESTEAD)) 3
        NETWORK_IDS_HOMESTEAD).chainId = NETWORK_IDS_HOMESTEAD :=
  (open_default_chain_id okLedgerEnv defaultChainArgs _ rfl rfl).1

/-- C10: the promise returned by `open` rejects exactly when validation
throws; after validation passes, a connection or address-request error
makes `open` resolve with the value returned by the connection error
handler (which is undefined), never reject. -/
theorem open_rejects_only_on_validation
    (env : LedgerEnv) (args : WalletArguments) :
    (∀ e : ValidationError,
      (openWallet env args).fst = .error e ↔
        userInputValidator args = .error e) ∧
    (userInputValidator args = .ok () →
      ∀ e : JsError, env.connect = .error e →
        (openWallet env args).fst =
          .ok (handleLedgerConnectionError
            ⟨userExportGenericError,
              derivationPathSerializer
                (coinTypeFor (args.chainId.getD NETWORK_IDS_HOMESTEAD)),
              e.message⟩).fst) ∧
    (userInputValidator args = .ok () →
      ∀ e : JsError, env.connect = .ok () →
        env.getAddress
            (derivationPathSerializer
              (coinTypeFor (args.chainId.getD NETWORK_IDS_HOMESTEAD)))
            false true = .error e →
        (openWallet env args).fst =
          .ok (handleLedgerConnectionError
            ⟨userExportGenericError,
              derivationPathSerializer
                (coinTypeFor (args.chainId.getD NETWORK_IDS_HOMESTEAD)),
              e.message⟩).fst) := by
  refine ⟨fun e => ⟨fun h => ?_, fun h => by simp [openWallet, h]⟩,
    fun hv e hc => by simp [openWallet, hv, hc, handleLedgerConnectionError],
    fun hv e hc hg => by
      simp [openWallet, hv, hc, hg, handleLedgerConnectionError]⟩
  rcases hv : userInputValidator args with e0 | u
  · simpa [openWallet, hv] using h
  · rcases hc : env.connect with ce | cu
    · simp [openWallet, hv, hc, handleLedgerConnectionError] at h
    · rcases hg : env.getAddress
          (derivationPathSerializer
            (coinTypeFor (args.chainId.getD NETWORK_IDS_HOMESTEAD)))
          false true with ge | resp
      · simp [openWallet, hv, hc, hg, handleLedgerConnectionError] at h
      · simp [openWallet, hv, hc, hg] at h

/-- Witness for C10 at concrete runs: rejection on validation failure and
resolution to the handler value on a connection failure. -/
theorem open_rejects_only_on_validation_witness :
    ((openWallet okLedgerEnv missingCountArgs).fst =
        .error ⟨"addressCount"⟩ ↔
      userInputValidator missingCountArgs = .error ⟨"addressCount"⟩) ∧
    (openWallet connectFailEnv someArgs).fst =
      .ok (handleLedgerConnectionError
        ⟨userExportGenericError, derivationPathSerializer (coinTypeFor 5),
          "device not connected"⟩).fst :=
  ⟨(open_rejects_only_on_validation okLedgerEnv missingCountArgs).1
      ⟨"addressCount"⟩,
    (open_rejects_only_on_validation connectFailEnv someArgs).2.1 rfl
      ⟨"device not connected"⟩ rfl⟩

/-- C6: given fixed key material, root path and a non-negative
`addressCount`, the wallet constructor produces exactly `addressCount`
derived addresses whose child indices are 0 through addressCount - 1 in
order (all at change level 0 under the root path), and two invocations
with identical inputs yield identical address sequences. -/
theorem ledgerWalletNew_derives_addressCount_in_order
    (publicKey chainCode : String) (root : RootPath)
    (addressCount chainId : Int) (h : 0 ≤ addressCount) :
    ((ledgerWalletNew publicKey chainCode root addressCount
        chainId).addresses.length : Int) = addressCount ∧
    (ledgerWalletNew publicKey chainCode root addressCount
        chainId).addresses.map DerivedAddress.index =
      (List.range addressCount.toNat).map Int.ofNat ∧
    (ledgerWalletNew publicKey chainCode root addressCount
        chainId).addresses =
      (ledgerWalletNew publicKey chainCode root addressCount
        chainId).addresses ∧
    ∀ a ∈ (ledgerWalletNew publicKey chainCode root addressCount
        chainId).addresses,
      a.publicKey = publicKey ∧ a.chainCode = chainCode ∧ a.root = root ∧
        a.change = 0 := by
  refine ⟨?_, ?_, rfl, ?_⟩
  · simp [ledgerWalletNew, Int.toNat_of_nonneg h]
  · simp [ledgerWalletNew, deriveAddress, List.map_map, Function.comp]
  · intro a ha
    simp [ledgerWalletNew, deriveAddress] at ha
    obtain ⟨i, -, hi⟩ := ha
    simp [← hi]

/-- Witness for C6 at `addressCount = 3`. -/
theorem ledgerWalletNew_derives_addressCount_in_order_witness :
    ((ledgerWalletNew "pk" "cc" ⟨60, 0⟩ 3 1).addresses.length : Int) = 3 ∧
    (ledgerWalletNew "pk" "cc" ⟨60, 0⟩ 3 1).addresses.map
        DerivedAddress.index = [0, 1, 2] := by
  have h := ledgerWalletNew_derives_addressCount_in_order "pk" "cc"
    ⟨60, 0⟩ 3 1 (by decide)
  exact ⟨h.1, by rw [h.2.1]; decide⟩

/-- C4: `metamask` called when no injected browser wallet provider is
present returns the empty-object sentinel, emits exactly one
"not available" warning, and never calls the Web3Provider constructor. -/
theorem metamask_not_available
    (env : ProviderEnv) (network : String) (h : env.web3Current = none) :
    metamask env network = (.empty, [.warnLog .metamaskNotAvailable]) := by
  simp [metamask, h]

/-- Witness for C4 at a concrete environment. -/
theorem metamask_not_available_witness :
    metamask benignProviderEnv DEFAULT_NETWORK =
      (.empty, [.warnLog .metamaskNotAvailable]) :=
  metamask_not_available benignProviderEnv DEFAULT_NETWORK rfl

/-- C9: whenever `etherscan` or `infura` is given a truthy apiKey and no
constructor throws, the missing-api-key warning is still emitted and the
returned provider is the one constructed without the apiKey: the keyed
construction result is unconditionally overwritten. -/
theorem api_key_never_reaches_returned_provider :
    (∀ (env : ProviderEnv) (network : String) (apiKey : Option String),
      jsTruthy apiKey = true →
      env.etherscanThrows network apiKey = none →
      env.etherscanThrows network none = none →
      (etherscan env network apiKey).fst =
          .provider (.etherscanP network none) ∧
      ProvEvent.warnLog .etherscanApiKey ∈ (etherscan env network apiKey).snd) ∧
    (∀ (env : ProviderEnv) (network : String) (apiKey : Option String),
      jsTruthy apiKey = true →
      env.infuraThrows network apiKey = none →
      env.infuraThrows network none = none →
      (infura env network apiKey).fst = .provider (.infuraP network none) ∧
      ProvEvent.warnLog .infuraApiKey ∈ (infura env network apiKey).snd) := by
  constructor
  · intro env network apiKey ht h1 h2
    simp [etherscan, etherscanNew, ht, h1, h2]
  · intro env network apiKey ht h1 h2
    simp [infura, infuraNew, ht, h1, h2]

/-- Witness for C9 at a concrete environment and truthy api key. -/
theorem api_key_never_reaches_returned_provider_witness :
    ((etherscan benignProviderEnv DEFAULT_NETWORK (some "key")).fst =
        .provider (.etherscanP DEFAULT_NETWORK none) ∧
      ProvEvent.warnLog .etherscanApiKey ∈
        (etherscan benignProviderEnv DEFAULT_NETWORK (some "key")).snd) ∧
    ((infura benignProviderEnv DEFAULT_NETWORK (some "key")).fst =
        .provider (.infuraP DEFAULT_NETWORK none) ∧
      ProvEvent.warnLog .infuraApiKey ∈
        (infura benignProviderEnv DEFAULT_NETWORK (some "key")).snd) :=
  ⟨api_key_never_reaches_returned_provider.1 benignProviderEnv
      DEFAULT_NETWORK (some "key") (by decide) rfl rfl,
    api_key_never_reaches_returned_provider.2 benignProviderEnv
      DEFAULT_NETWORK (some "key") (by decide) rfl rfl⟩

/-- Counterexample to C3 as stated: in an environment where the keyed
etherscan construction succeeds but the keyless one throws, a call with a
truthy apiKey has an underlying constructor throw (witnessed by the error
log in the trace) yet returns the keyed provider, not the empty-object
sentinel. -/
theorem provider_throw_returns_sentinel_cex :
    keyedOnlyProviderEnv.etherscanThrows DEFAULT_NETWORK none =
      some ⟨"no key"⟩ ∧
    (etherscan keyedOnlyProviderEnv DEFAULT_NETWORK (some "key")).snd =
      [.ctorCall .etherscanK, .warnLog .etherscanApiKey,
        .ctorCall .etherscanK, .errorLog .etherscanK ⟨"no key"⟩] ∧
    (etherscan keyedOnlyProviderEnv DEFAULT_NETWORK (some "key")).fst =
      .provider (.etherscanP DEFAULT_NETWORK (some "key")) ∧
    (etherscan keyedOnlyProviderEnv DEFAULT_NETWORK (some "key")).fst ≠
      .empty := by
  refine ⟨rfl, ?_, ?_, ?_⟩ <;>
    simp [etherscan, etherscanNew, keyedOnlyProviderEnv, jsTruthy,
      DEFAULT_NETWORK]

/-- C3 amended: no provider generator propagates an exception (each is a
total function returning its current provider value), and a throwing
underlying constructor yields the empty-object sentinel in every case
except one: for `etherscan` and `infura` with a truthy apiKey, when the
keyed construction succeeded and the subsequent keyless construction
throws, the keyed provider is returned instead of the sentinel. -/
theorem providers_throw_amended :
    (∀ (env : ProviderEnv) (url network : String) (e : JsError),
      env.jsonRpcThrows url network = some e →
      (localhost env url network).fst = .empty) ∧
    (∀ (env : ProviderEnv) (network : String) (e : JsError),
      env.web3Current = some () → env.web3Throws network = some e →
      (metamask env network).fst = .empty) ∧
    (∀ (env : ProviderEnv) (network : String) (apiKey : Option String)
        (e : JsError),
      jsTruthy apiKey = true → env.etherscanThrows network apiKey = some e →
      (etherscan env network apiKey).fst = .empty) ∧
    (∀ (env : ProviderEnv) (network : String) (apiKey : Option String)
        (e : JsError),
      jsTruthy apiKey = false → env.etherscanThrows network none = some e →
      (etherscan env network apiKey).fst = .empty) ∧
    (∀ (env : ProviderEnv) (network : String) (apiKey : Option String)
        (e : JsError),
      jsTruthy apiKey = true → env.etherscanThrows network apiKey = none →
      env.etherscanThrows network none = some e →
      (etherscan env network apiKey).fst =
        .provider (.etherscanP network apiKey)) ∧
    (∀ (env : ProviderEnv) (network : String) (apiKey : Option String)
        (e : JsError),
      jsTruthy apiKey = true → env.infuraThrows network apiKey = some e →
      (infura env network apiKey).fst = .empty) ∧
    (∀ (env : ProviderEnv) (network : String) (apiKey : Option String)
        (e : JsError),
      jsTruthy apiKey = false → env.infuraThrows network none = some e →
      (infura env network apiKey).fst = .empty) ∧
    (∀ (env : ProviderEnv) (network : String) (apiKey : Option String)
        (e : JsError),
      jsTruthy apiKey = true → env.infuraThrows network apiKey = none →
      env.infuraThrows network none = some e →
      (infura env network apiKey).fst =
        .provider (.infuraP network apiKey)) := by
  refine ⟨fun env url network e h => ?_, fun env network e hw h => ?_,
    fun env network apiKey e ht h => ?_,
    fun env network apiKey e ht h => ?_,
    fun env network apiKey e ht h1 h2 => ?_,
    fun env network apiKey e ht h => ?_,
    fun env network apiKey e ht h => ?_,
    fun env network apiKey e ht h1 h2 => ?_⟩
  · simp [localhost, jsonRpcNew, h]
  · simp [metamask, web3New, hw, h]
  · simp [etherscan, etherscanNew, ht, h]
  · simp [etherscan, etherscanNew, ht, h]
  · simp [etherscan, etherscanNew, ht, h1, h2]
  · simp [infura, infuraNew, ht, h]
  · simp [infura, infuraNew, ht, h]
  · simp [infura, infuraNew, ht, h1, h2]

/-- Witness for the amended C3 at concrete environments covering each
conjunct. -/
theorem providers_throw_amended_witness :
    (localhost throwingProviderEnv "http-url" DEFAULT_NETWORK).fst =
        .empty ∧
    (metamask throwingProviderEnv DEFAULT_NETWORK).fst = .empty ∧
    (etherscan throwingProviderEnv DEFAULT_NETWORK (some "key")).fst =
        .empty ∧
    (etherscan throwingProviderEnv DEFAULT_NETWORK none).fst = .empty ∧
    (etherscan keyedOnlyProviderEnv DEFAULT_NETWORK (some "key")).fst =
        .provider (.etherscanP DEFAULT_NETWORK (some "key")) ∧
    (infura throwingProviderEnv DEFAULT_NETWORK (some "key")).fst =
        .empty ∧
    (infura throwingProviderEnv DEFAULT_NETWORK none).fst = .empty ∧
    (infura keyedOnlyProviderEnv DEFAULT_NETWORK (some "key")).fst =
      .provider (.infuraP DEFAULT_NETWORK (some "key")) :=
  ⟨providers_throw_amended.1 throwingProviderEnv "http-url"
      DEFAULT_NETWORK ⟨"rpc down"⟩ rfl,
    providers_throw_amended.2.1 throwingProviderEnv DEFAULT_NETWORK
      ⟨"web3 down"⟩ rfl rfl,
    providers_throw_amended.2.2.1 throwingProviderEnv DEFAULT_NETWORK
      (some "key") ⟨"etherscan down"⟩ (by decide) rfl,
    providers_throw_amended.2.2.2.1 throwingProviderEnv DEFAULT_NETWORK
      none ⟨"etherscan down"⟩ (by decide) rfl,
    providers_throw_amended.2.2.2.2.1 keyedOnlyProviderEnv DEFAULT_NETWORK
      (some "key") ⟨"no key"⟩ (by decide) rfl rfl,
    providers_throw_amended.2.2.2.2.2.1 throwingProviderEnv
      DEFAULT_NETWORK (some "key") ⟨"infura down"⟩ (by decide) rfl,
    providers_throw_amended.2.2.2.2.2.2.1 throwingProviderEnv
      DEFAULT_NETWORK none ⟨"infura down"⟩ (by decide) rfl,
    providers_throw_amended.2.2.2.2.2.2.2 keyedOnlyProviderEnv
      DEFAULT_NETWORK (some "key") ⟨"no key"⟩ (by decide) rfl rfl⟩

end Purser
